import Mathlib

/-!
Shallow embedding of the revenue-recognition and ledger-balancing engine of
`nazeelToComsys.py` (class `NazeelComsysIntegrator`), together with theorems
checking the natural-language specification against it.

Modelling conventions:
* Python `float` monetary arithmetic is modelled exactly over `ℚ`; `round(x, 2)`
  is modelled as rounding `100 * x` to the nearest integer (the two agree on all
  values considered here; only ties differ, and no statement below depends on a
  tie).
* `datetime` values are modelled as a calendar date (year/month/day) plus a
  second-of-day count; `datetime.date()` is the date projection.
* Dynamic dict records are modelled as structures holding the fields the engine
  reads; log/description strings that are never inspected by the logic
  (`reason` strings of the matcher, `Desc` text of journal lines, log lines)
  are elided.
* Database effects are modelled by explicit state passing on `DbState`; the
  points at which the driver can raise (journal validation, header insert,
  detail insert, per-row tracking inserts) are modelled by a `Fault` parameter
  injected at the corresponding program point.
-/

namespace NazeelToComsys

/-- A calendar date, as produced by `datetime.date()`. -/
structure Date where
  year : Nat
  month : Nat
  day : Nat
deriving DecidableEq

/-- A `datetime` value: calendar date plus seconds elapsed since midnight. -/
structure DateTime where
  date : Date
  sod : Nat
deriving DecidableEq

/-- Chronological strict order on `datetime` values (lexicographic). -/
def dtGt (a b : DateTime) : Prop :=
  a.date.year > b.date.year ∨
    (a.date.year = b.date.year ∧
      (a.date.month > b.date.month ∨
        (a.date.month = b.date.month ∧
          (a.date.day > b.date.day ∨
            (a.date.day = b.date.day ∧ a.sod > b.sod)))))

instance (a b : DateTime) : Decidable (dtGt a b) := by
  unfold dtGt
  infer_instance

/-- One entry of an invoice's `invoicesItemsDetalis` list: `subTotal`,
optional integer `itemType` tag and string `type` tag. -/
structure InvoiceItem where
  subTotal : ℚ
  itemType : Option Int
  typeStr : String
deriving DecidableEq

/-- An invoice record after the fetch step (`_revenue_date` assigned). -/
structure Invoice where
  invoiceNumber : String
  reservationNumber : String
  totalAmount : ℚ
  vatAmount : ℚ
  items : List InvoiceItem
  raw_creation : Option DateTime
  revenueDate : Date
deriving DecidableEq

/-- A receipt or refund voucher record after the fetch step. -/
structure Voucher where
  voucherNumber : String
  reservationNumber : String
  amount : ℚ
  paymentMethodId : Int
  raw_issue : Option DateTime
  revenueDate : Date
deriving DecidableEq

/-- `EXACT_MATCH_TOLERANCE = 0.01` (SAR). -/
def EXACT_MATCH_TOLERANCE : ℚ := 1 / 100

/-- `UNDERPAYMENT_TOLERANCE = 10.00` (SAR). -/
def UNDERPAYMENT_TOLERANCE : ℚ := 10

def REVENUE_ACCOUNT : String := "101000020"

def VAT_ACCOUNT : String := "021500010"

def MUNICIPALITY_TAX_ACCOUNT : String := "021500090"

def PENALTIES_ACCOUNT : String := "021100040"

def GUEST_LEDGER_ACCOUNT : String := "011200010"

def CASH_OVER_SHORT_ACCOUNT : String := "505000098"

def STAFF_ACCOUNT : String := "011500070"

/-- `PAYMENT_METHOD_ACCOUNTS`: payment-method id to (account code, label). -/
def PAYMENT_METHOD_ACCOUNTS : List (Int × String × String) :=
  [(1, "011500020", "Cash ( FO)"),
   (2, "011200065", "MADA"),
   (3, "-", "Payment Method 3"),
   (4, "011500001", "Bank Transfer"),
   (5, "-", "Aljazera Bank"),
   (6, "-", "American Express"),
   (7, "011200050", "Visa Card"),
   (8, "011200060", "Master Card"),
   (9, "-", " Payment Method 9"),
   (10, "011200065", "GCCNET")]

/-- `assign_revenue_date`: "uses transaction date as-is (no cutoff)". -/
def assign_revenue_date (transaction_datetime : DateTime) : Date :=
  transaction_datetime.date

/-- `build_receipt_lookup` / `build_refund_lookup` as a lookup function:
vouchers are grouped by `reservationNumber`, skipping falsy (empty) keys, and
`dict.get(key, [])` returns the group of `key` (empty for absent keys). -/
def build_voucher_lookup (all_vouchers : List Voucher) : String → List Voucher :=
  fun reservation_num =>
    if reservation_num = "" then []
    else all_vouchers.filter (fun v => v.reservationNumber = reservation_num)

/-- The six processing statuses returned by `match_invoice_to_receipts`. -/
inductive MatchStatus where
  | PROCESS_EXACT
  | PROCESS_OVERPAID_PARTIAL_REFUND
  | PROCESS_OVERPAID_NO_REFUND
  | PROCESS_UNDERPAID_SMALL
  | PROCESS_NO_NET_PAYMENT
  | PROCESS_UNDERPAID_LARGE
deriving DecidableEq

/-- Result tuple of `match_invoice_to_receipts` (the log-only `reason` string
is elided). -/
structure MatchResult where
  status : MatchStatus
  invoice_amount : ℚ
  receipt_total : ℚ
  refund_total : ℚ
  net_received : ℚ
deriving DecidableEq

/-- `match_invoice_to_receipts`: look up the receipts and refunds sharing the
invoice's reservation number, compute totals and classify. -/
def match_invoice_to_receipts (invoice : Invoice)
    (receipt_lookup refund_lookup : String → List Voucher) : MatchResult :=
  let reservation_num := invoice.reservationNumber
  let invoice_amount := invoice.totalAmount
  let receipts := receipt_lookup reservation_num
  let receipt_total := (receipts.map (fun r => r.amount)).sum
  let refunds := refund_lookup reservation_num
  let refund_total := (refunds.map (fun r => |r.amount|)).sum
  let net_received := receipt_total - refund_total
  let difference := net_received - invoice_amount
  if |difference| ≤ EXACT_MATCH_TOLERANCE then
    ⟨.PROCESS_EXACT, invoice_amount, receipt_total, refund_total, net_received⟩
  else if difference > EXACT_MATCH_TOLERANCE then
    if refunds ≠ [] then
      ⟨.PROCESS_OVERPAID_PARTIAL_REFUND, invoice_amount, receipt_total, refund_total, net_received⟩
    else
      ⟨.PROCESS_OVERPAID_NO_REFUND, invoice_amount, receipt_total, refund_total, net_received⟩
  else if |difference| ≤ UNDERPAYMENT_TOLERANCE then
    ⟨.PROCESS_UNDERPAID_SMALL, invoice_amount, receipt_total, refund_total, net_received⟩
  else if net_received = 0 then
    ⟨.PROCESS_NO_NET_PAYMENT, invoice_amount, receipt_total, refund_total, net_received⟩
  else
    ⟨.PROCESS_UNDERPAID_LARGE, invoice_amount, receipt_total, refund_total, net_received⟩

/-- The four revenue component buckets. -/
structure Components where
  individual_rate : ℚ
  vat : ℚ
  municipality_tax : ℚ
  penalties : ℚ
deriving DecidableEq

/-- `extract_invoice_components`: VAT from the invoice header, then bucket
each itemized line by its type tags.  An invoice with no items keeps the
initial zero buckets (apart from VAT). -/
def extract_invoice_components (invoice : Invoice) : Components :=
  let base : Components := ⟨0, invoice.vatAmount, 0, 0⟩
  invoice.items.foldl
    (fun c item =>
      if item.itemType = some 4 ∨ item.typeStr.startsWith "Fee--" then
        { c with municipality_tax := c.municipality_tax + item.subTotal }
      else if item.itemType = some 3 then
        { c with penalties := c.penalties + item.subTotal }
      else if item.itemType = some 1 then
        { c with individual_rate := c.individual_rate + item.subTotal }
      else c)
    base

/-- A Staff-Account entry built in `process_revenue_date` for an invoice whose
shortage exceeds the underpayment tolerance (fields used by the persistence
step; the log-only guest name is elided). -/
structure StaffEntry where
  invoice_number : String
  reservation : String
  invoice_amount : ℚ
  net_received : ℚ
  shortage : ℚ
  shortage_type : String
deriving DecidableEq

/-- The matching loop of `process_revenue_date` (lines 608-649): for each
invoice of the date, rerun the matcher and collect the Cash-Over/Short entry
amounts (signed differences) and the Staff-Account entries.  The code appends
at the tail while this recursion prepends; only membership and sums are used
downstream.  Cash-Over/Short entries carry only their `amount` field here (the
other fields are log-only). -/
def classify_date_invoices (receipt_lookup refund_lookup : String → List Voucher) :
    List Invoice → List ℚ × List StaffEntry
  | [] => ([], [])
  | invoice :: rest =>
    let acc := classify_date_invoices receipt_lookup refund_lookup rest
    let m := match_invoice_to_receipts invoice receipt_lookup refund_lookup
    let difference := m.net_received - m.invoice_amount
    if |difference| > EXACT_MATCH_TOLERANCE then
      if difference > 0 then (difference :: acc.1, acc.2)
      else if |difference| ≤ UNDERPAYMENT_TOLERANCE then (difference :: acc.1, acc.2)
      else
        (acc.1,
         ⟨invoice.invoiceNumber, invoice.reservationNumber, m.invoice_amount,
          m.net_received, |difference|,
          if m.net_received = 0 then "NO_NET_PAYMENT" else "UNDERPAID"⟩ :: acc.2)
    else acc

/-- `defaultdict(float)` accumulation: add `v` to the entry of key `k`,
appending a new entry (in insertion order) when the key is absent. -/
def upsert (l : List (Int × ℚ)) (k : Int) (v : ℚ) : List (Int × ℚ) :=
  match l with
  | [] => [(k, v)]
  | (k₀, v₀) :: rest =>
    if k₀ = k then (k₀, v₀ + v) :: rest else (k₀, v₀) :: upsert rest k v

/-- The per-method accumulation loops of `process_revenue_date`
(lines 653-663): group voucher amounts by `paymentMethodId`. -/
def group_amounts (f : Voucher → ℚ) (vouchers : List Voucher) : List (Int × ℚ) :=
  vouchers.foldl (fun acc v => upsert acc v.paymentMethodId (f v)) []

/-- Element-wise sum of revenue components. -/
def add_components (a b : Components) : Components :=
  ⟨a.individual_rate + b.individual_rate, a.vat + b.vat,
   a.municipality_tax + b.municipality_tax, a.penalties + b.penalties⟩

/-- The component-summation loop of `process_revenue_date` (lines 668-678). -/
def sum_invoice_components (invoices : List Invoice) : Components :=
  invoices.foldl (fun acc inv => add_components acc (extract_invoice_components inv)) ⟨0, 0, 0, 0⟩

/-- `sum(revenue_components.values())`. -/
def components_total (c : Components) : ℚ :=
  c.individual_rate + c.vat + c.municipality_tax + c.penalties

/-- `sum(d.values())` for a grouped method dictionary. -/
def values_sum (l : List (Int × ℚ)) : ℚ :=
  (l.map (fun kv => kv.2)).sum

/-- Everything `process_revenue_date` computes for one revenue date before the
database transaction begins (lines 604-683). -/
structure Aggregates where
  cash_over_short_entries : List ℚ
  staff_account_entries : List StaffEntry
  payment_methods : List (Int × ℚ)
  refund_methods : List (Int × ℚ)
  total_receipts : ℚ
  total_refunds : ℚ
  revenue_components : Components
  total_revenue : ℚ
  cash_over_short_total : ℚ
  staff_account_total : ℚ
  guest_ledger_amount : ℚ
deriving DecidableEq

/-- The aggregation phase of `process_revenue_date`: match and classify every
invoice of the date, total receipts and refunds per payment method, total the
revenue components, and solve for the guest-ledger residual. -/
def aggregate_revenue_date (date_receipts : List Voucher) (date_invoices : List Invoice)
    (date_refunds : List Voucher)
    (receipt_lookup refund_lookup : String → List Voucher) : Aggregates :=
  let cls := classify_date_invoices receipt_lookup refund_lookup date_invoices
  let payment_methods := group_amounts (fun r => r.amount) date_receipts
  let refund_methods := group_amounts (fun r => |r.amount|) date_refunds
  let total_receipts := values_sum payment_methods
  let total_refunds := values_sum refund_methods
  let revenue_components := sum_invoice_components date_invoices
  let total_revenue := components_total revenue_components
  let cash_over_short_total := cls.1.sum
  let staff_account_total := (cls.2.map (fun e => e.shortage)).sum
  let guest_ledger_amount :=
    total_receipts - total_revenue - cash_over_short_total - staff_account_total - total_refunds
  ⟨cls.1, cls.2, payment_methods, refund_methods, total_receipts, total_refunds,
   revenue_components, total_revenue, cash_over_short_total, staff_account_total,
   guest_ledger_amount⟩

/-- Python `round(x, 2)`: round to the nearest multiple of `1/100`
(tie behaviour immaterial for every statement below). -/
def round2 (x : ℚ) : ℚ :=
  (round (100 * x) : ℚ) / 100

/-- One row of the `FhglTxDed` detail table (the `Desc` text is elided). -/
structure DedRow where
  docu : String
  year : String
  month : String
  serial : Int
  line : Nat
  account : String
  valuLeDr : ℚ
  valuLeCr : ℚ
  valuFcDr : ℚ
  valuFcCr : ℚ
deriving DecidableEq

/-- The journal lines `insert_fhgl_tx_ded` emits, in order, as
(account, debit, credit) triples over the already-rounded amounts:
(1) debits per mapped payment method with positive amount, (2) Staff Account
debit, (3) Guest Ledger debit when the residual is negative, (4) revenue
component credits, (5) refund method credits, (6) the Cash-Over/Short line on
the side of its sign, (7) Guest Ledger credit when the residual is positive. -/
def ded_entry_list (payment_methods refund_methods : List (Int × ℚ))
    (revenue_components : Components)
    (cash_over_short staff_account guest_ledger : ℚ) : List (String × ℚ × ℚ) :=
  (payment_methods.filterMap (fun kv =>
    if kv.2 > 0 then
      (PAYMENT_METHOD_ACCOUNTS.lookup kv.1).map (fun a => (a.1, kv.2, (0 : ℚ)))
    else none)) ++
  (if staff_account > 0 then [(STAFF_ACCOUNT, staff_account, 0)] else []) ++
  (if guest_ledger < 0 then [(GUEST_LEDGER_ACCOUNT, |guest_ledger|, 0)] else []) ++
  (if revenue_components.individual_rate > 0 then
    [(REVENUE_ACCOUNT, 0, revenue_components.individual_rate)] else []) ++
  (if revenue_components.vat > 0 then [(VAT_ACCOUNT, 0, revenue_components.vat)] else []) ++
  (if revenue_components.municipality_tax > 0 then
    [(MUNICIPALITY_TAX_ACCOUNT, 0, revenue_components.municipality_tax)] else []) ++
  (if revenue_components.penalties > 0 then
    [(PENALTIES_ACCOUNT, 0, revenue_components.penalties)] else []) ++
  (refund_methods.filterMap (fun kv =>
    if kv.2 > 0 then
      (PAYMENT_METHOD_ACCOUNTS.lookup kv.1).map (fun a => (a.1, (0 : ℚ), kv.2))
    else none)) ++
  (if |cash_over_short| > 0 then
    if cash_over_short > 0 then [(CASH_OVER_SHORT_ACCOUNT, 0, |cash_over_short|)]
    else [(CASH_OVER_SHORT_ACCOUNT, |cash_over_short|, 0)]
   else []) ++
  (if guest_ledger > 0 then [(GUEST_LEDGER_ACCOUNT, 0, |guest_ledger|)] else [])

/-- `insert_fhgl_tx_ded` as a pure function: round every aggregated amount to
2 decimals, emit the ordered journal lines, and number them from 1.  Each
foreign-currency column mirrors its local column, as in the source. -/
def insert_fhgl_tx_ded (docu year month : String) (serial : Int)
    (payment_methods refund_methods : List (Int × ℚ)) (revenue_components : Components)
    (cash_over_short staff_account guest_ledger : ℚ) : List DedRow :=
  let payment_methods := payment_methods.map (fun kv => (kv.1, round2 kv.2))
  let refund_methods := refund_methods.map (fun kv => (kv.1, round2 kv.2))
  let revenue_components : Components :=
    ⟨round2 revenue_components.individual_rate, round2 revenue_components.vat,
     round2 revenue_components.municipality_tax, round2 revenue_components.penalties⟩
  let cash_over_short := round2 cash_over_short
  let staff_account := round2 staff_account
  let guest_ledger := round2 guest_ledger
  ((ded_entry_list payment_methods refund_methods revenue_components
      cash_over_short staff_account guest_ledger).enum).map
    (fun e => ⟨docu, year, month, serial, e.1 + 1, e.2.1, e.2.2.1, e.2.2.2, e.2.2.1, e.2.2.2⟩)

/-- Sum of the debit-local amounts over a set of journal lines. -/
def sum_debit (rows : List DedRow) : ℚ :=
  (rows.map (fun r => r.valuLeDr)).sum

/-- Sum of the credit-local amounts over a set of journal lines. -/
def sum_credit (rows : List DedRow) : ℚ :=
  (rows.map (fun r => r.valuLeCr)).sum

/-- One row of the `FhglTxHed` header table (constant flag columns elided). -/
structure HedRow where
  docu : String
  year : String
  month : String
  serial : Int
  date : Date
  currency : String
  rate : ℚ
deriving DecidableEq

/-- A `Processed_Receipts` / `Processed_Refunds` tracking row. -/
structure VoucherRow where
  voucherNumber : String
  reservationNumber : String
  amount : ℚ
  paymentMethodId : Int
  revenueDate : Date
  docu : String
  year : String
  month : String
  serial : Int
deriving DecidableEq

/-- A `Processed_Invoices` tracking row. -/
structure InvoiceRow where
  invoiceNumber : String
  reservationNumber : String
  totalAmount : ℚ
  revenueDate : Date
  docu : String
  year : String
  month : String
  serial : Int
deriving DecidableEq

/-- A `Staff_Account_Entries` tracking row (note the source stores the net
received amount in the `ReceivedAmount` column). -/
structure StaffRow where
  invoiceNumber : String
  reservationNumber : String
  invoiceAmount : ℚ
  receivedAmount : ℚ
  shortageAmount : ℚ
  shortageType : String
  revenueDate : Date
  docu : String
  year : String
  month : String
  serial : Int
deriving DecidableEq

/-- The database tables the engine writes, as explicit state. -/
structure DbState where
  hed : List HedRow
  ded : List DedRow
  proc_receipts : List VoucherRow
  proc_refunds : List VoucherRow
  proc_invoices : List InvoiceRow
  staff_rows : List StaffRow
deriving DecidableEq

/-- Points at which the database layer can fail inside the per-date
transaction of `process_revenue_date`: `badJournal` models `_validate_journal`
returning false (invalid `Docu`), `hedError` / `dedError` model the driver
raising on the header / detail insert, and `trackError` models the per-row
tracking inserts raising (which the source catches row by row). -/
inductive Fault where
  | ok
  | badJournal
  | hedError
  | dedError
  | trackError
deriving DecidableEq

/-- `generate_docu`. -/
def generate_docu : String := "115"

/-- `str(revenue_date.year)`. -/
def year_str (d : Date) : String := toString d.year

/-- `f"{revenue_date.month:02d}"`. -/
def month_str (d : Date) : String :=
  if d.month < 10 then "0" ++ toString d.month else toString d.month

/-- `get_next_serial`: `ISNULL(MAX(Serial), 0) + 1` over the header rows of
the same (document, year, month). -/
def get_next_serial (hed : List HedRow) (docu year month : String) : Int :=
  ((hed.filter (fun h => h.docu = docu ∧ h.year = year ∧ h.month = month)).map
    (fun h => h.serial)).foldl max 0 + 1

/-- The header row `insert_fhgl_tx_hed` writes. -/
def mk_hed_row (docu year month : String) (serial : Int) (revenue_date : Date) : HedRow :=
  ⟨docu, year, month, serial, revenue_date, "001", 1⟩

/-- The tracking rows `insert_processed_receipts` / `insert_processed_refunds`
write. -/
def mk_voucher_rows (docu year month : String) (serial : Int)
    (vouchers : List Voucher) : List VoucherRow :=
  vouchers.map (fun v =>
    ⟨v.voucherNumber, v.reservationNumber, v.amount, v.paymentMethodId,
     v.revenueDate, docu, year, month, serial⟩)

/-- The tracking rows `insert_processed_invoices` writes. -/
def mk_invoice_rows (docu year month : String) (serial : Int)
    (invoices : List Invoice) : List InvoiceRow :=
  invoices.map (fun inv =>
    ⟨inv.invoiceNumber, inv.reservationNumber, inv.totalAmount,
     inv.revenueDate, docu, year, month, serial⟩)

/-- The tracking rows `insert_staff_account_entries` writes. -/
def mk_staff_rows (docu year month : String) (serial : Int) (revenue_date : Date)
    (entries : List StaffEntry) : List StaffRow :=
  entries.map (fun e =>
    ⟨e.invoice_number, e.reservation, e.invoice_amount, e.net_received,
     e.shortage, e.shortage_type, revenue_date, docu, year, month, serial⟩)

/-- `process_revenue_date`: aggregate the date's transactions, then run the
per-date database transaction — validate the document code, allocate the next
serial, insert the header, detail and tracking rows, and commit; any raised
error rolls the whole date back (`(false, unchanged state)`).  Per-row
tracking-insert errors are caught inside the insert helpers, so a
`trackError` fault loses only the tracking rows and the date still commits. -/
def process_revenue_date (fault : Fault) (revenue_date : Date)
    (date_receipts : List Voucher) (date_invoices : List Invoice)
    (date_refunds : List Voucher)
    (receipt_lookup refund_lookup : String → List Voucher)
    (st : DbState) : Bool × DbState :=
  let ag := aggregate_revenue_date date_receipts date_invoices date_refunds
    receipt_lookup refund_lookup
  let docu := generate_docu
  if fault = .badJournal then (false, st)
  else
    let year := year_str revenue_date
    let month := month_str revenue_date
    let serial := get_next_serial st.hed docu year month
    if fault = .hedError then (false, st)
    else
      let hed_row := mk_hed_row docu year month serial revenue_date
      if fault = .dedError then (false, st)
      else
        let ded_rows := insert_fhgl_tx_ded docu year month serial
          ag.payment_methods ag.refund_methods ag.revenue_components
          ag.cash_over_short_total ag.staff_account_total ag.guest_ledger_amount
        let track :=
          if fault = .trackError then (([] : List VoucherRow), ([] : List VoucherRow),
            ([] : List InvoiceRow), ([] : List StaffRow))
          else
            (mk_voucher_rows docu year month serial date_receipts,
             mk_voucher_rows docu year month serial date_refunds,
             mk_invoice_rows docu year month serial date_invoices,
             mk_staff_rows docu year month serial revenue_date ag.staff_account_entries)
        (true,
         { hed := st.hed ++ [hed_row],
           ded := st.ded ++ ded_rows,
           proc_receipts := st.proc_receipts ++ track.1,
           proc_refunds := st.proc_refunds ++ track.2.1,
           proc_invoices := st.proc_invoices ++ track.2.2.1,
           staff_rows := st.staff_rows ++ track.2.2.2 })

/-- The data of one revenue date inside a run, with the fault the database
layer produces while that date is processed. -/
structure DateBundle where
  rd : Date
  fault : Fault
  receipts : List Voucher
  invoices : List Invoice
  refunds : List Voucher
deriving DecidableEq

/-- The per-date loop of `process_all_data` (lines 1067-1081): process every
revenue date in order against the shared connection state, counting successes
and failures.  Returns (success count, failed count, final state). -/
def process_all_dates (receipt_lookup refund_lookup : String → List Voucher) :
    List DateBundle → DbState → Nat × Nat × DbState
  | [], st => (0, 0, st)
  | b :: rest, st =>
    let r := process_revenue_date b.fault b.rd b.receipts b.invoices b.refunds
      receipt_lookup refund_lookup st
    let acc := process_all_dates receipt_lookup refund_lookup rest r.2
    if r.1 then (acc.1 + 1, acc.2.1, acc.2.2) else (acc.1, acc.2.1 + 1, acc.2.2)

/-- The timestamp field of a raw API record: absent/empty string, a string
`datetime.fromisoformat` rejects (`ValueError`), or a string parsing to a
`datetime`. -/
inductive TsField where
  | emptyStr
  | unparseable
  | parsed (dt : DateTime)
deriving DecidableEq

/-- A raw invoice record as returned by the `Getinvoices` endpoint. -/
structure RawInvoice where
  isReversed : Bool
  invoiceNumber : String
  reservationNumber : String
  totalAmount : ℚ
  vatAmount : ℚ
  items : List InvoiceItem
  creationDate : TsField
deriving DecidableEq

/-- A raw voucher record as returned by the `GetReciptVouchers` /
`GetRefundVouchers` endpoints. -/
structure RawVoucher where
  isCanceled : Bool
  voucherNumber : String
  reservationNumber : String
  amount : ℚ
  paymentMethodId : Int
  issueDateTime : TsField
deriving DecidableEq

/-- The configuration `__init__` establishes: `current_run_time` exists only
when no explicit start/end range was supplied (today's noon), and
`current_date` is `date.today()`.  The API fetch-window fields only feed the
HTTP payload and are elided. -/
structure IntegratorCfg where
  current_run_time : Option DateTime
  current_date : Date
deriving DecidableEq

/-- `__init__`: with an explicit (start, end) range no `current_run_time`
attribute is set; otherwise it is `now.replace(hour=12, minute=0, second=0)`. -/
def mk_integrator (explicit_range : Option (DateTime × DateTime)) (now : DateTime)
    (today : Date) : IntegratorCfg :=
  match explicit_range with
  | some _ => ⟨none, today⟩
  | none => ⟨some ⟨now.date, 12 * 3600⟩, today⟩

/-- The fetched invoice built from a raw record and its assigned revenue
date. -/
def invoice_of (inv : RawInvoice) (raw : Option DateTime) (rd : Date) : Invoice :=
  ⟨inv.invoiceNumber, inv.reservationNumber, inv.totalAmount, inv.vatAmount,
   inv.items, raw, rd⟩

/-- The per-record step of `fetch_invoices` (lines 409-433): drop reversed and
already-processed records; a parsed timestamp later than `current_run_time`
(when that attribute exists) drops the record; a missing or unparseable
timestamp falls back to `current_date` as the revenue date. -/
def fetch_invoice_step (cfg : IntegratorCfg) (processed : List String)
    (inv : RawInvoice) : Option Invoice :=
  if inv.isReversed then none
  else if inv.invoiceNumber ∈ processed then none
  else
    match inv.creationDate with
    | .emptyStr => some (invoice_of inv none cfg.current_date)
    | .unparseable => some (invoice_of inv none cfg.current_date)
    | .parsed dt =>
      match cfg.current_run_time with
      | some rt =>
        if dtGt dt rt then none
        else some (invoice_of inv (some dt) (assign_revenue_date dt))
      | none => some (invoice_of inv (some dt) (assign_revenue_date dt))

/-- `fetch_invoices` over an already-fetched record list. -/
def fetch_invoices (cfg : IntegratorCfg) (processed : List String)
    (data : List RawInvoice) : List Invoice :=
  data.filterMap (fetch_invoice_step cfg processed)

/-- The fetched voucher built from a raw record and its assigned revenue
date. -/
def voucher_of (v : RawVoucher) (raw : Option DateTime) (rd : Date) : Voucher :=
  ⟨v.voucherNumber, v.reservationNumber, v.amount, v.paymentMethodId, raw, rd⟩

/-- The per-record step shared by `fetch_receipts` (lines 447-467) and
`fetch_refunds` (lines 481-501), whose bodies are textually identical: drop
cancelled and already-processed records; a missing or unparseable timestamp
falls back to `current_date`; there is no `current_run_time` filter. -/
def fetch_voucher_step (cfg : IntegratorCfg) (processed : List String)
    (v : RawVoucher) : Option Voucher :=
  if v.isCanceled then none
  else if v.voucherNumber ∈ processed then none
  else
    match v.issueDateTime with
    | .emptyStr => some (voucher_of v none cfg.current_date)
    | .unparseable => some (voucher_of v none cfg.current_date)
    | .parsed dt => some (voucher_of v (some dt) (assign_revenue_date dt))

/-- `fetch_receipts` over an already-fetched record list. -/
def fetch_receipts (cfg : IntegratorCfg) (processed : List String)
    (data : List RawVoucher) : List Voucher :=
  data.filterMap (fetch_voucher_step cfg processed)

/-- `fetch_refunds` over an already-fetched record list. -/
def fetch_refunds (cfg : IntegratorCfg) (processed : List String)
    (data : List RawVoucher) : List Voucher :=
  data.filterMap (fetch_voucher_step cfg processed)

/-! ## Specification-side definitions

The following definitions transcribe the specification's own wording (the
classification table of §4.2 and the aggregation formulas of §4.4) so that the
code-derived definitions above can be compared against them. -/

/-- The five classification outcomes named by the specification. -/
inductive Outcome where
  | EXACT
  | OVERPAID
  | UNDERPAID_TOLERABLE
  | NO_NET_PAYMENT
  | UNDERPAID_LARGE
deriving DecidableEq

/-- The specification outcome each processing status realizes (the source
splits OVERPAID into a with-refund and a without-refund status). -/
def outcome_of_status : MatchStatus → Outcome
  | .PROCESS_EXACT => .EXACT
  | .PROCESS_OVERPAID_PARTIAL_REFUND => .OVERPAID
  | .PROCESS_OVERPAID_NO_REFUND => .OVERPAID
  | .PROCESS_UNDERPAID_SMALL => .UNDERPAID_TOLERABLE
  | .PROCESS_NO_NET_PAYMENT => .NO_NET_PAYMENT
  | .PROCESS_UNDERPAID_LARGE => .UNDERPAID_LARGE

/-- The classification table of the specification (§4.2), rows evaluated in
order, first match wins, with τ_exact = `EXACT_MATCH_TOLERANCE` and
τ_underpay = `UNDERPAYMENT_TOLERANCE`. -/
def spec_classify (diff net : ℚ) : Outcome :=
  if |diff| ≤ EXACT_MATCH_TOLERANCE then .EXACT
  else if diff > EXACT_MATCH_TOLERANCE then .OVERPAID
  else if |diff| ≤ UNDERPAYMENT_TOLERANCE ∧ diff < 0 then .UNDERPAID_TOLERABLE
  else if net = 0 then .NO_NET_PAYMENT
  else .UNDERPAID_LARGE

/-- The signed difference (net received − invoice amount) of an invoice's
match result. -/
def diff_of (inv : Invoice) (receipt_lookup refund_lookup : String → List Voucher) : ℚ :=
  let m := match_invoice_to_receipts inv receipt_lookup refund_lookup
  m.net_received - m.invoice_amount

/-- The outcome an invoice's match result realizes. -/
def outcome_of_inv (inv : Invoice)
    (receipt_lookup refund_lookup : String → List Voucher) : Outcome :=
  outcome_of_status (match_invoice_to_receipts inv receipt_lookup refund_lookup).status

/-- Claim C5 as stated: Σ diff over invoices classified EXACT, OVERPAID or
UNDERPAID_TOLERABLE. -/
def spec_cos_sum_with_exact (invs : List Invoice)
    (receipt_lookup refund_lookup : String → List Voucher) : ℚ :=
  ((invs.filter (fun inv =>
      outcome_of_inv inv receipt_lookup refund_lookup = .EXACT ∨
      outcome_of_inv inv receipt_lookup refund_lookup = .OVERPAID ∨
      outcome_of_inv inv receipt_lookup refund_lookup = .UNDERPAID_TOLERABLE)).map
    (fun inv => diff_of inv receipt_lookup refund_lookup)).sum

/-- Σ diff over invoices classified OVERPAID or UNDERPAID_TOLERABLE (the
amended C5). -/
def spec_cos_sum (invs : List Invoice)
    (receipt_lookup refund_lookup : String → List Voucher) : ℚ :=
  ((invs.filter (fun inv =>
      outcome_of_inv inv receipt_lookup refund_lookup = .OVERPAID ∨
      outcome_of_inv inv receipt_lookup refund_lookup = .UNDERPAID_TOLERABLE)).map
    (fun inv => diff_of inv receipt_lookup refund_lookup)).sum

/-- Σ shortage magnitude over invoices classified NO_NET_PAYMENT or
UNDERPAID_LARGE. -/
def spec_staff_sum (invs : List Invoice)
    (receipt_lookup refund_lookup : String → List Voucher) : ℚ :=
  ((invs.filter (fun inv =>
      outcome_of_inv inv receipt_lookup refund_lookup = .NO_NET_PAYMENT ∨
      outcome_of_inv inv receipt_lookup refund_lookup = .UNDERPAID_LARGE)).map
    (fun inv => |diff_of inv receipt_lookup refund_lookup|)).sum

/-- `paymentTotals[method] = Σ receipt.amount` for the receipts of one payment
method (§4.4). -/
def spec_method_total (f : Voucher → ℚ) (vouchers : List Voucher) (m : Int) : ℚ :=
  ((vouchers.filter (fun v => v.paymentMethodId = m)).map f).sum

/-- `Σ paymentTotals`: the sum, over the distinct payment-method ids occurring
in the list, of the per-method totals (§4.4). -/
def spec_totals_sum (f : Voucher → ℚ) (vouchers : List Voucher) : ℚ :=
  (((vouchers.map (fun v => v.paymentMethodId)).dedup).map
    (spec_method_total f vouchers)).sum

/-- `Σ revenueComponentsTotal`: the sum over the invoices of each invoice's
total extracted components (§4.4). -/
def spec_components_sum (invs : List Invoice) : ℚ :=
  (invs.map (fun inv => components_total (extract_invoice_components inv))).sum

/-! ## Helper lemmas -/

section ListHelpers

variable {α : Type}

lemma map_congr_mem (l : List α) (f g : α → ℚ) (h : ∀ a ∈ l, f a = g a) :
    l.map f = l.map g := by
  induction l with
  | nil => rfl
  | cons a t ih =>
    simp only [List.map_cons, h a (by simp)]
    exact congrArg _ (ih fun a ha => h a (by simp [ha]))

lemma filter_filter_of_imp (p q : α → Bool) (l : List α)
    (h : ∀ a, p a = true → q a = true) : (l.filter q).filter p = l.filter p := by
  induction l with
  | nil => rfl
  | cons a t ih =>
    by_cases hp : p a = true
    · have hq := h a hp
      simp [List.filter_cons, hp, hq, ih]
    · by_cases hq : q a = true <;>
        simp [List.filter_cons, hp, hq, ih]

lemma sum_map_filter_key_split (key : α → Int) (k : Int) (f : α → ℚ) (l : List α) :
    ((l.filter (fun a => key a = k)).map f).sum +
      ((l.filter (fun a => ¬ key a = k)).map f).sum = (l.map f).sum := by
  induction l with
  | nil => simp
  | cons a t ih =>
    simp only [decide_not] at ih
    by_cases h : key a = k <;> simp [List.filter_cons, h, decide_not] <;> linarith

lemma fiber_sum (key : α → Int) (f : α → ℚ) :
    ∀ keys : List Int, keys.Nodup → ∀ l : List α, (∀ a ∈ l, key a ∈ keys) →
      (keys.map (fun m => ((l.filter (fun a => key a = m)).map f).sum)).sum =
        (l.map f).sum := by
  intro keys
  induction keys with
  | nil =>
    intro _ l hl
    have hnil : l = [] := by
      cases l with
      | nil => rfl
      | cons a t => exact absurd (hl a (by simp)) (by simp)
    subst hnil
    simp
  | cons k ks ih =>
    intro hnd l hl
    have hk : k ∉ ks := (List.nodup_cons.mp hnd).1
    have hnd' : ks.Nodup := (List.nodup_cons.mp hnd).2
    rw [List.map_cons, List.sum_cons]
    have hstep : ks.map (fun m => ((l.filter (fun a => key a = m)).map f).sum) =
        ks.map (fun m =>
          (((l.filter (fun a => ¬ key a = k)).filter (fun a => key a = m)).map f).sum) := by
      apply List.map_congr_left
      intro m hm
      have hmk : m ≠ k := fun he => hk (he ▸ hm)
      rw [filter_filter_of_imp]
      intro a ha
      simp only [decide_eq_true_eq] at ha
      simp [ha, hmk]
    rw [hstep, ih hnd' (l.filter (fun a => ¬ key a = k)) ?_]
    · exact sum_map_filter_key_split key k f l
    · intro a ha
      have hmem := List.mem_of_mem_filter ha
      have hprop := List.of_mem_filter ha
      simp only [decide_eq_true_eq] at hprop
      have := hl a hmem
      simp only [List.mem_cons] at this
      exact this.resolve_left hprop

end ListHelpers

lemma values_sum_nil : values_sum [] = 0 := rfl

lemma values_sum_upsert (l : List (Int × ℚ)) (k : Int) (v : ℚ) :
    values_sum (upsert l k v) = values_sum l + v := by
  induction l with
  | nil => simp [upsert, values_sum]
  | cons kv rest ih =>
    by_cases h : kv.1 = k <;> simp [upsert, h, values_sum] at ih ⊢ <;> linarith

lemma group_amounts_foldl_sum (f : Voucher → ℚ) (vouchers : List Voucher) :
    ∀ acc : List (Int × ℚ),
      values_sum (vouchers.foldl (fun acc v => upsert acc v.paymentMethodId (f v)) acc) =
        values_sum acc + (vouchers.map f).sum := by
  induction vouchers with
  | nil => intro acc; simp
  | cons v rest ih =>
    intro acc
    simp only [List.foldl_cons, List.map_cons, List.sum_cons]
    rw [ih, values_sum_upsert]
    ring

/-- `sum(payment_methods.values())` equals the plain sum of the grouped
amounts. -/
lemma group_amounts_sum (f : Voucher → ℚ) (vouchers : List Voucher) :
    values_sum (group_amounts f vouchers) = (vouchers.map f).sum := by
  rw [group_amounts, group_amounts_foldl_sum]
  simp [values_sum]

/-- The specification's `Σ paymentTotals` (sum over the distinct method ids of
the per-method totals) also equals the plain sum of the amounts. -/
lemma spec_totals_sum_eq (f : Voucher → ℚ) (vouchers : List Voucher) :
    spec_totals_sum f vouchers = (vouchers.map f).sum := by
  rw [spec_totals_sum]
  have := fiber_sum (fun v : Voucher => v.paymentMethodId) f
    ((vouchers.map (fun v => v.paymentMethodId)).dedup) (List.nodup_dedup _)
    vouchers (by
      intro a ha
      exact List.mem_dedup.mpr (List.mem_map_of_mem _ ha))
  rw [← this]
  rfl

lemma components_total_add (a b : Components) :
    components_total (add_components a b) = components_total a + components_total b := by
  simp [components_total, add_components]
  ring

lemma sum_invoice_components_foldl (invs : List Invoice) :
    ∀ acc : Components,
      components_total
          (invs.foldl (fun acc inv => add_components acc (extract_invoice_components inv)) acc) =
        components_total acc + spec_components_sum invs := by
  induction invs with
  | nil => intro acc; simp [spec_components_sum]
  | cons inv rest ih =>
    intro acc
    simp only [List.foldl_cons]
    rw [ih, components_total_add]
    simp only [spec_components_sum, List.map_cons, List.sum_cons]
    ring

/-- The element-wise component accumulation of `process_revenue_date` totals
to the per-invoice component totals. -/
lemma sum_invoice_components_total (invs : List Invoice) :
    components_total (sum_invoice_components invs) = spec_components_sum invs := by
  rw [sum_invoice_components, sum_invoice_components_foldl]
  simp [components_total]

lemma neg_of_not_exact_not_over {d : ℚ} (h1 : ¬ |d| ≤ EXACT_MATCH_TOLERANCE)
    (h2 : ¬ d > EXACT_MATCH_TOLERANCE) : d < 0 := by
  by_contra h
  push_neg at h
  rw [abs_of_nonneg h] at h1
  exact h1 (not_lt.mp h2)

/-- The matcher computes the totals the specification prescribes and its
status realizes exactly the outcome of the specification's classification
table. -/
lemma match_invoice_spec (inv : Invoice) (rL fL : String → List Voucher) :
    (match_invoice_to_receipts inv rL fL).invoice_amount = inv.totalAmount ∧
    (match_invoice_to_receipts inv rL fL).receipt_total =
      ((rL inv.reservationNumber).map (fun r => r.amount)).sum ∧
    (match_invoice_to_receipts inv rL fL).refund_total =
      ((fL inv.reservationNumber).map (fun r => |r.amount|)).sum ∧
    (match_invoice_to_receipts inv rL fL).net_received =
      (match_invoice_to_receipts inv rL fL).receipt_total -
        (match_invoice_to_receipts inv rL fL).refund_total ∧
    outcome_of_status (match_invoice_to_receipts inv rL fL).status =
      spec_classify
        ((match_invoice_to_receipts inv rL fL).net_received -
          (match_invoice_to_receipts inv rL fL).invoice_amount)
        (match_invoice_to_receipts inv rL fL).net_received := by
  simp only [match_invoice_to_receipts]
  split_ifs with h1 h2 h3 h4 h5
  · refine ⟨rfl, rfl, rfl, rfl, ?_⟩
    simp only [spec_classify]
    rw [if_pos h1]
    rfl
  · refine ⟨rfl, rfl, rfl, rfl, ?_⟩
    simp only [spec_classify]
    rw [if_neg h1, if_pos h2]
    rfl
  · refine ⟨rfl, rfl, rfl, rfl, ?_⟩
    simp only [spec_classify]
    rw [if_neg h1, if_pos h2]
    rfl
  · refine ⟨rfl, rfl, rfl, rfl, ?_⟩
    have hd := neg_of_not_exact_not_over h1 h2
    simp only [spec_classify]
    rw [if_neg h1, if_neg h2, if_pos ⟨h4, hd⟩]
    rfl
  · refine ⟨rfl, rfl, rfl, rfl, ?_⟩
    simp only [spec_classify]
    rw [if_neg h1, if_neg h2, if_neg (fun hc => h4 hc.1), if_pos h5]
    rfl
  · refine ⟨rfl, rfl, rfl, rfl, ?_⟩
    simp only [spec_classify]
    rw [if_neg h1, if_neg h2, if_neg (fun hc => h4 hc.1), if_neg h5]
    rfl

lemma diff_of_eq (inv : Invoice) (rL fL : String → List Voucher) :
    diff_of inv rL fL =
      (match_invoice_to_receipts inv rL fL).net_received -
        (match_invoice_to_receipts inv rL fL).invoice_amount := rfl

lemma outcome_of_inv_eq (inv : Invoice) (rL fL : String → List Voucher) :
    outcome_of_inv inv rL fL =
      spec_classify (diff_of inv rL fL)
        (match_invoice_to_receipts inv rL fL).net_received :=
  (match_invoice_spec inv rL fL).2.2.2.2

/-- The Cash-Over/Short entry amounts collected by `process_revenue_date` sum
to Σ diff over the invoices classified OVERPAID / UNDERPAID_TOLERABLE, and
the Staff-Account entry shortages sum to Σ |diff| over the invoices
classified NO_NET_PAYMENT / UNDERPAID_LARGE. -/
lemma classify_sums (rL fL : String → List Voucher) (invs : List Invoice) :
    (classify_date_invoices rL fL invs).1.sum = spec_cos_sum invs rL fL ∧
      ((classify_date_invoices rL fL invs).2.map (fun e => e.shortage)).sum =
        spec_staff_sum invs rL fL := by
  induction invs with
  | nil => simp [classify_date_invoices, spec_cos_sum, spec_staff_sum]
  | cons inv rest ih =>
    obtain ⟨ihc, ihs⟩ := ih
    have hout := outcome_of_inv_eq inv rL fL
    have hdf := diff_of_eq inv rL fL
    simp only [classify_date_invoices]
    split_ifs with h1 h2 h3 h4
    · -- overpayment: difference positive beyond the exact tolerance
      have ho : outcome_of_inv inv rL fL = Outcome.OVERPAID := by
        rw [hout, hdf, spec_classify, if_neg (not_le.mpr h1),
          if_pos (by rw [abs_of_pos h2] at h1; exact h1)]
      simp only [spec_cos_sum, spec_staff_sum, List.filter_cons, ho,
        List.map_cons, List.sum_cons]
      simp only [spec_cos_sum, spec_staff_sum] at ihc ihs
      simp [ihc, ihs, hdf]
    · -- small underpayment within the underpayment tolerance
      have hle : (match_invoice_to_receipts inv rL fL).net_received -
          (match_invoice_to_receipts inv rL fL).invoice_amount ≤ 0 := not_lt.mp h2
      have hneg : (match_invoice_to_receipts inv rL fL).net_received -
          (match_invoice_to_receipts inv rL fL).invoice_amount < 0 := by
        rcases lt_or_eq_of_le hle with h | h
        · exact h
        · rw [h] at h1
          norm_num [EXACT_MATCH_TOLERANCE] at h1
      have hngt : ¬ ((match_invoice_to_receipts inv rL fL).net_received -
          (match_invoice_to_receipts inv rL fL).invoice_amount >
            EXACT_MATCH_TOLERANCE) := by
        rw [EXACT_MATCH_TOLERANCE]
        intro hgt
        linarith
      have ho : outcome_of_inv inv rL fL = Outcome.UNDERPAID_TOLERABLE := by
        rw [hout, hdf, spec_classify, if_neg (not_le.mpr h1), if_neg hngt,
          if_pos ⟨h3, hneg⟩]
      simp only [spec_cos_sum, spec_staff_sum, List.filter_cons, ho,
        List.map_cons, List.sum_cons]
      simp only [spec_cos_sum, spec_staff_sum] at ihc ihs
      simp [ihc, ihs, hdf]
    · -- large shortage with zero net payment: Staff-Account entry
      have hle : (match_invoice_to_receipts inv rL fL).net_received -
          (match_invoice_to_receipts inv rL fL).invoice_amount ≤ 0 := not_lt.mp h2
      have hngt : ¬ ((match_invoice_to_receipts inv rL fL).net_received -
          (match_invoice_to_receipts inv rL fL).invoice_amount >
            EXACT_MATCH_TOLERANCE) := by
        rw [EXACT_MATCH_TOLERANCE]
        intro hgt
        linarith
      have ho : outcome_of_inv inv rL fL = Outcome.NO_NET_PAYMENT := by
        rw [hout, hdf, spec_classify, if_neg (not_le.mpr h1), if_neg hngt,
          if_neg (fun hc => h3 hc.1), if_pos h4]
      simp only [spec_cos_sum, spec_staff_sum, List.filter_cons, ho,
        List.map_cons, List.sum_cons]
      simp only [spec_cos_sum, spec_staff_sum] at ihc ihs
      simp [ihc, ihs, hdf]
    · -- large shortage with nonzero net payment: Staff-Account entry
      have hle : (match_invoice_to_receipts inv rL fL).net_received -
          (match_invoice_to_receipts inv rL fL).invoice_amount ≤ 0 := not_lt.mp h2
      have hngt : ¬ ((match_invoice_to_receipts inv rL fL).net_received -
          (match_invoice_to_receipts inv rL fL).invoice_amount >
            EXACT_MATCH_TOLERANCE) := by
        rw [EXACT_MATCH_TOLERANCE]
        intro hgt
        linarith
      have ho : outcome_of_inv inv rL fL = Outcome.UNDERPAID_LARGE := by
        rw [hout, hdf, spec_classify, if_neg (not_le.mpr h1), if_neg hngt,
          if_neg (fun hc => h3 hc.1), if_neg h4]
      simp only [spec_cos_sum, spec_staff_sum, List.filter_cons, ho,
        List.map_cons, List.sum_cons]
      simp only [spec_cos_sum, spec_staff_sum] at ihc ihs
      simp [ihc, ihs, hdf]
    · -- exact match within tolerance: no clearing entry either way
      have ho : outcome_of_inv inv rL fL = Outcome.EXACT := by
        rw [hout, hdf, spec_classify, if_pos (not_lt.mp h1)]
      simp only [spec_cos_sum, spec_staff_sum, List.filter_cons, ho,
        List.map_cons, List.sum_cons]
      simp only [spec_cos_sum, spec_staff_sum] at ihc ihs
      simp [ihc, ihs]

/-! ## Concrete fixtures -/

lemma startsWith_empty_fee : "".startsWith "Fee--" = false := by decide

/-- An invoice of 100.00 SAR (one base-rate item of 100.00, VAT 0) whose
reservation has no receipts and no refunds: the matcher classifies it
NO_NET_PAYMENT and the full 100.00 goes to the Staff Account. -/
def invA : Invoice :=
  ⟨"INV-1001", "R-1", 100, 0, [⟨100, some 1, ""⟩], none, ⟨2025, 10, 25⟩⟩

/-- The lookup of a run that fetched no receipts (or no refunds). -/
def empty_lookup : String → List Voucher := fun _ => []

/-- The aggregation `process_revenue_date` performs for the date holding only
`invA`. -/
def agA : Aggregates :=
  aggregate_revenue_date [] [invA] [] empty_lookup empty_lookup

/-- The journal lines `insert_fhgl_tx_ded` emits for that aggregation. -/
def linesA : List DedRow :=
  insert_fhgl_tx_ded generate_docu "2025" "10" 1
    agA.payment_methods agA.refund_methods agA.revenue_components
    agA.cash_over_short_total agA.staff_account_total agA.guest_ledger_amount

/-- The empty database state. -/
def st0 : DbState := ⟨[], [], [], [], [], []⟩

/-- A full fault-free `process_revenue_date` run on the `invA` date. -/
def resA : Bool × DbState :=
  process_revenue_date .ok ⟨2025, 10, 25⟩ [] [invA] [] empty_lookup empty_lookup st0

/-! ## Claim theorems -/

/-- C1. The specification claims every emitted ledger batch satisfies
Σ debit-local = Σ credit-local.  Evaluating the journal-line emission on the
aggregation produced by a 100.00 SAR invoice with no payments refutes this:
the Staff Account is debited 100.00 *and* subtracted from the guest-ledger
residual, so the emitted lines carry Σ debit = 300.00 against
Σ credit = 100.00 (an imbalance of twice the staff amount). -/
theorem c1_staff_shortage_batch_unbalanced :
    sum_debit linesA = 300 ∧ sum_credit linesA = 100 := by
  norm_num [linesA, agA, aggregate_revenue_date, classify_date_invoices,
    match_invoice_to_receipts, invA, empty_lookup, group_amounts,
    sum_invoice_components, extract_invoice_components, components_total,
    values_sum, add_components, insert_fhgl_tx_ded, ded_entry_list, round2,
    round_eq, sum_debit, sum_credit, EXACT_MATCH_TOLERANCE,
    UNDERPAYMENT_TOLERANCE, generate_docu, PAYMENT_METHOD_ACCOUNTS,
    STAFF_ACCOUNT, GUEST_LEDGER_ACCOUNT, REVENUE_ACCOUNT, VAT_ACCOUNT,
    MUNICIPALITY_TAX_ACCOUNT, PENALTIES_ACCOUNT, List.enum, List.enumFrom,
    List.lookup, startsWith_empty_fee]

/-- C2. The specification claims a batch whose double-entry sums do not
balance is aborted before emission.  The code contains no balance check at
all: on the same unbalanced `invA` date the fault-free transaction reports
success and persists the unbalanced journal lines. -/
theorem c2_unbalanced_batch_committed :
    resA.1 = true ∧ resA.2.ded.length = 3 ∧
      sum_debit resA.2.ded ≠ sum_credit resA.2.ded := by
  norm_num [resA, st0, process_revenue_date, agA, aggregate_revenue_date,
    classify_date_invoices, match_invoice_to_receipts, invA, empty_lookup,
    group_amounts, sum_invoice_components, extract_invoice_components,
    components_total, values_sum, add_components, insert_fhgl_tx_ded,
    ded_entry_list, round2, round_eq, sum_debit, sum_credit,
    EXACT_MATCH_TOLERANCE, UNDERPAYMENT_TOLERANCE, generate_docu,
    get_next_serial, year_str, month_str, mk_hed_row, mk_voucher_rows,
    mk_invoice_rows, mk_staff_rows, PAYMENT_METHOD_ACCOUNTS, STAFF_ACCOUNT,
    GUEST_LEDGER_ACCOUNT, REVENUE_ACCOUNT, VAT_ACCOUNT,
    MUNICIPALITY_TAX_ACCOUNT, PENALTIES_ACCOUNT, List.enum, List.enumFrom,
    List.lookup, startsWith_empty_fee,
    (show Fault.ok ≠ Fault.badJournal by decide),
    (show Fault.ok ≠ Fault.hedError by decide),
    (show Fault.ok ≠ Fault.dedError by decide),
    (show Fault.ok ≠ Fault.trackError by decide)]

/-- C3. The matcher computes grossReceipts, grossRefunds, net and the signed
difference exactly as specified, and its returned status realizes the first
matching row of the specification's classification table; being a pure total
function of its inputs, it always returns a classification and has no side
effects. -/
theorem c3_match_classification (inv : Invoice) (rL fL : String → List Voucher) :
    (match_invoice_to_receipts inv rL fL).invoice_amount = inv.totalAmount ∧
    (match_invoice_to_receipts inv rL fL).receipt_total =
      ((rL inv.reservationNumber).map (fun r => r.amount)).sum ∧
    (match_invoice_to_receipts inv rL fL).refund_total =
      ((fL inv.reservationNumber).map (fun r => |r.amount|)).sum ∧
    (match_invoice_to_receipts inv rL fL).net_received =
      (match_invoice_to_receipts inv rL fL).receipt_total -
        (match_invoice_to_receipts inv rL fL).refund_total ∧
    outcome_of_status (match_invoice_to_receipts inv rL fL).status =
      spec_classify
        ((match_invoice_to_receipts inv rL fL).net_received -
          (match_invoice_to_receipts inv rL fL).invoice_amount)
        (match_invoice_to_receipts inv rL fL).net_received :=
  match_invoice_spec inv rL fL

/-- C4. The guest-ledger residual produced by aggregation equals
Σ paymentTotals − Σ revenueComponentsTotal − cashOverShort − staffAccount −
Σ refundTotals, where the payment/refund totals are the per-method sums over
the date's receipts and refunds (refunds by absolute value). -/
theorem c4_guest_ledger_formula (date_receipts : List Voucher)
    (date_invoices : List Invoice) (date_refunds : List Voucher)
    (rL fL : String → List Voucher) :
    (aggregate_revenue_date date_receipts date_invoices date_refunds rL fL).guest_ledger_amount =
      spec_totals_sum (fun r => r.amount) date_receipts -
        spec_components_sum date_invoices -
        (aggregate_revenue_date date_receipts date_invoices date_refunds rL fL).cash_over_short_total -
        (aggregate_revenue_date date_receipts date_invoices date_refunds rL fL).staff_account_total -
        spec_totals_sum (fun r => |r.amount|) date_refunds := by
  simp only [aggregate_revenue_date]
  rw [spec_totals_sum_eq, spec_totals_sum_eq, group_amounts_sum, group_amounts_sum,
    sum_invoice_components_total]

/-- An invoice of 100.00 SAR whose reservation collected a single receipt of
100.01 SAR: diff = 0.01 is within the exact tolerance, so the matcher
classifies it EXACT. -/
def invB : Invoice :=
  ⟨"INV-2001", "R-2", 100, 0, [⟨100, some 1, ""⟩], none, ⟨2025, 10, 25⟩⟩

/-- The 100.01 SAR receipt paying `invB`. -/
def recB : Voucher :=
  ⟨"RV-2001", "R-2", 10001 / 100, 1, none, ⟨2025, 10, 25⟩⟩

/-- C5 counterexample. The claim sums diff over EXACT invoices as well, but
the code only collects Cash-Over/Short entries when |diff| exceeds the exact
tolerance: for the EXACT invoice `invB` with diff = 0.01 the aggregated
cash-over/short is 0 while the claimed sum is 0.01. -/
theorem c5_exact_diff_not_counted :
    ¬ ((aggregate_revenue_date [recB] [invB] [] (build_voucher_lookup [recB])
          (build_voucher_lookup [])).cash_over_short_total =
        spec_cos_sum_with_exact [invB] (build_voucher_lookup [recB])
          (build_voucher_lookup [])) := by
  norm_num [aggregate_revenue_date, classify_date_invoices,
    match_invoice_to_receipts, invB, recB, build_voucher_lookup,
    spec_cos_sum_with_exact, outcome_of_inv, outcome_of_status, diff_of,
    group_amounts, sum_invoice_components, extract_invoice_components,
    components_total, values_sum, add_components, EXACT_MATCH_TOLERANCE,
    UNDERPAYMENT_TOLERANCE, startsWith_empty_fee, upsert,
    (show ("R-2" : String) ≠ "" by decide),
    (show |(1 : ℚ) / 100| = 1 / 100 from abs_of_nonneg (by norm_num))]

/-- C5 as amended: the cash-over/short amount equals the signed Σ diff over
the invoices classified OVERPAID or UNDERPAID_TOLERABLE (EXACT invoices'
sub-tolerance diffs are not collected), and the staff-account amount equals
Σ |diff| over the invoices classified NO_NET_PAYMENT or UNDERPAID_LARGE. -/
theorem c5_cos_staff_totals (date_receipts : List Voucher)
    (date_invoices : List Invoice) (date_refunds : List Voucher)
    (rL fL : String → List Voucher) :
    (aggregate_revenue_date date_receipts date_invoices date_refunds rL fL).cash_over_short_total =
      spec_cos_sum date_invoices rL fL ∧
    (aggregate_revenue_date date_receipts date_invoices date_refunds rL fL).staff_account_total =
      spec_staff_sum date_invoices rL fL := by
  simp only [aggregate_revenue_date]
  exact classify_sums rL fL date_invoices

/-- An invoice with no itemized lines, total 115.00 and VAT 15.00. -/
def invC : Invoice :=
  ⟨"INV-3001", "R-3", 115, 15, [], none, ⟨2025, 10, 25⟩⟩

/-- C6 counterexample. The claimed fallback `individualRate = total − vat`
does not exist in the extractor: for `invC` (no items, total 115.00,
VAT 15.00) the extracted individual rate is 0, not 100.00. -/
theorem c6_no_fallback_counterexample :
    ¬ ((extract_invoice_components invC).individual_rate =
        invC.totalAmount - invC.vatAmount) := by
  norm_num [extract_invoice_components, invC]

/-- C6 as amended: for an invoice with no itemized lines the extractor keeps
all item buckets at 0 and only carries the header VAT — there is no
`total − vat` fallback, so the 115.00/15.00 invoice yields individualRate
0. -/
theorem c6_no_items_components (inv : Invoice) (h : inv.items = []) :
    extract_invoice_components inv = ⟨0, inv.vatAmount, 0, 0⟩ := by
  simp [extract_invoice_components, h]

theorem c6_no_items_components_witness :
    invC.items = [] ∧ extract_invoice_components invC = ⟨0, 15, 0, 0⟩ :=
  ⟨rfl, c6_no_items_components invC rfl⟩

/-- The timestamp 2025-10-25 11:59:59. -/
def tC : DateTime := ⟨⟨2025, 10, 25⟩, 11 * 3600 + 59 * 60 + 59⟩

/-- C7 counterexample. Under the claimed noon-cutoff policy a timestamp of
11:59:59 must be assigned the previous calendar day; the assigner instead
returns the timestamp's own date (2025-10-25, not 2025-10-24). -/
theorem c7_noon_cutoff_counterexample :
    ¬ (assign_revenue_date tC = ⟨2025, 10, 24⟩) := by
  decide

/-- C7 as amended: the assigner implements only the identity policy — the
revenue date is always the timestamp's own calendar date, with no noon
cutoff and no policy configuration; in particular both 11:59:59 and 12:00:00
map to the same day. -/
theorem c7_identity_policy (t : DateTime) :
    assign_revenue_date t = t.date ∧
    assign_revenue_date ⟨t.date, 11 * 3600 + 59 * 60 + 59⟩ = t.date ∧
    assign_revenue_date ⟨t.date, 12 * 3600⟩ = t.date :=
  ⟨rfl, rfl, rfl⟩

lemma process_revenue_date_failed (fault : Fault)
    (h : fault = .badJournal ∨ fault = .hedError ∨ fault = .dedError)
    (rd : Date) (r : List Voucher) (i : List Invoice) (fr : List Voucher)
    (rL fL : String → List Voucher) (st : DbState) :
    process_revenue_date fault rd r i fr rL fL st = (false, st) := by
  rcases h with h | h | h <;> subst h <;> simp [process_revenue_date]

lemma process_all_dates_skip (rL fL : String → List Voucher) (b : DateBundle)
    (hb : b.fault = .badJournal ∨ b.fault = .hedError ∨ b.fault = .dedError) :
    ∀ (pre post : List DateBundle) (st : DbState),
      process_all_dates rL fL (pre ++ b :: post) st =
        ((process_all_dates rL fL (pre ++ post) st).1,
         (process_all_dates rL fL (pre ++ post) st).2.1 + 1,
         (process_all_dates rL fL (pre ++ post) st).2.2) := by
  intro pre
  induction pre with
  | nil =>
    intro post st
    simp only [List.nil_append, process_all_dates]
    rw [process_revenue_date_failed b.fault hb]
    simp
  | cons p pre ih =>
    intro post st
    simp only [List.cons_append, process_all_dates, List.append_eq]
    rw [ih]
    cases hr : (process_revenue_date p.fault p.rd p.receipts p.invoices p.refunds
        rL fL st).1 <;> simp [hr]

/-- C8 as amended: a revenue date fails on an invalid document code or an
error inserting the header or detail rows; a failed date persists nothing
(its transaction state is unchanged) and the remaining dates of the run are
still processed, the failure only incrementing the failed count.  (Per-row
tracking-insert errors do not fail the date — see the counterexample.) -/
theorem c8_failed_date_rolls_back_and_run_continues
    (b : DateBundle) (pre post : List DateBundle)
    (rL fL : String → List Voucher) (st : DbState)
    (h : b.fault = .badJournal ∨ b.fault = .hedError ∨ b.fault = .dedError) :
    process_revenue_date b.fault b.rd b.receipts b.invoices b.refunds rL fL st =
      (false, st) ∧
    process_all_dates rL fL (pre ++ b :: post) st =
      ((process_all_dates rL fL (pre ++ post) st).1,
       (process_all_dates rL fL (pre ++ post) st).2.1 + 1,
       (process_all_dates rL fL (pre ++ post) st).2.2) :=
  ⟨process_revenue_date_failed b.fault h b.rd b.receipts b.invoices b.refunds rL fL st,
   process_all_dates_skip rL fL b h pre post st⟩

/-- A revenue date carrying no data whose journal validation fails. -/
def bundle0 : DateBundle := ⟨⟨2025, 10, 25⟩, .badJournal, [], [], []⟩

theorem c8_failed_date_rolls_back_and_run_continues_witness :
    process_revenue_date bundle0.fault bundle0.rd bundle0.receipts bundle0.invoices
        bundle0.refunds empty_lookup empty_lookup st0 = (false, st0) ∧
    process_all_dates empty_lookup empty_lookup ([] ++ bundle0 :: []) st0 =
      ((process_all_dates empty_lookup empty_lookup ([] ++ []) st0).1,
       (process_all_dates empty_lookup empty_lookup ([] ++ []) st0).2.1 + 1,
       (process_all_dates empty_lookup empty_lookup ([] ++ []) st0).2.2) :=
  c8_failed_date_rolls_back_and_run_continues bundle0 [] [] empty_lookup empty_lookup
    st0 (Or.inl rfl)

/-- A 50.00 SAR cash receipt with no matching invoice. -/
def recD : Voucher := ⟨"RV-4001", "R-4", 50, 1, none, ⟨2025, 10, 25⟩⟩

/-- A `process_revenue_date` run in which every per-row tracking insert
raises (and is caught row by row by the source). -/
def resD : Bool × DbState :=
  process_revenue_date .trackError ⟨2025, 10, 25⟩ [recD] [] [] empty_lookup
    empty_lookup st0

/-- C8 counterexample. The claim counts "any error during tracking insertion"
among the failures that roll the date back, but the source catches per-row
tracking-insert errors and continues: under a tracking fault the date still
reports success and persists its journal lines (only the tracking rows are
lost). -/
theorem c8_tracking_error_still_commits :
    resD.1 = true ∧ resD.2.ded.length = 2 ∧ resD.2.proc_receipts = [] := by
  norm_num [resD, st0, process_revenue_date, aggregate_revenue_date,
    classify_date_invoices, recD, empty_lookup, group_amounts,
    sum_invoice_components, extract_invoice_components, components_total,
    values_sum, add_components, insert_fhgl_tx_ded, ded_entry_list, round2,
    round_eq, EXACT_MATCH_TOLERANCE, UNDERPAYMENT_TOLERANCE, generate_docu,
    get_next_serial, year_str, month_str, mk_hed_row, mk_voucher_rows,
    mk_invoice_rows, mk_staff_rows, PAYMENT_METHOD_ACCOUNTS, STAFF_ACCOUNT,
    GUEST_LEDGER_ACCOUNT, REVENUE_ACCOUNT, VAT_ACCOUNT,
    MUNICIPALITY_TAX_ACCOUNT, PENALTIES_ACCOUNT, List.enum, List.enumFrom,
    List.lookup, upsert,
    (show Fault.trackError ≠ Fault.badJournal by decide),
    (show Fault.trackError ≠ Fault.hedError by decide),
    (show Fault.trackError ≠ Fault.dedError by decide)]

/-- C9. A fetched record whose timestamp string fails to parse is not
dropped: each of the three fetchers keeps it with today's date
(`current_date`) as its revenue date, so it flows on into grouping, matching
and aggregation. -/
theorem c9_parse_error_falls_back_to_today
    (cfg : IntegratorCfg) (processed : List String) (data : List RawInvoice)
    (inv : RawInvoice) (rec ref : RawVoucher)
    (hi1 : inv.isReversed = false) (hi2 : inv.invoiceNumber ∉ processed)
    (hi3 : inv.creationDate = .unparseable)
    (hr1 : rec.isCanceled = false) (hr2 : rec.voucherNumber ∉ processed)
    (hr3 : rec.issueDateTime = .unparseable)
    (hf1 : ref.isCanceled = false) (hf2 : ref.voucherNumber ∉ processed)
    (hf3 : ref.issueDateTime = .unparseable) :
    fetch_invoice_step cfg processed inv = some (invoice_of inv none cfg.current_date) ∧
    fetch_voucher_step cfg processed rec = some (voucher_of rec none cfg.current_date) ∧
    fetch_voucher_step cfg processed ref = some (voucher_of ref none cfg.current_date) ∧
    (inv ∈ data → invoice_of inv none cfg.current_date ∈ fetch_invoices cfg processed data) := by
  have h1 : fetch_invoice_step cfg processed inv =
      some (invoice_of inv none cfg.current_date) := by
    simp [fetch_invoice_step, hi1, hi2, hi3]
  refine ⟨h1, ?_, ?_, ?_⟩
  · simp [fetch_voucher_step, hr1, hr2, hr3]
  · simp [fetch_voucher_step, hf1, hf2, hf3]
  · intro hmem
    exact List.mem_filterMap.mpr ⟨inv, hmem, h1⟩

/-- A raw invoice with an unparseable creation timestamp. -/
def invR : RawInvoice := ⟨false, "INV-5001", "R-5", 80, 0, [], .unparseable⟩

/-- A raw receipt with an unparseable issue timestamp. -/
def recR : RawVoucher := ⟨false, "RV-5001", "R-5", 80, 1, .unparseable⟩

/-- A raw refund with an unparseable issue timestamp. -/
def refR : RawVoucher := ⟨false, "FV-5001", "R-5", -10, 1, .unparseable⟩

/-- The configuration of a run started without an explicit date range at noon
2025-10-25. -/
def cfg0 : IntegratorCfg := ⟨some ⟨⟨2025, 10, 25⟩, 12 * 3600⟩, ⟨2025, 10, 25⟩⟩

theorem c9_parse_error_falls_back_to_today_witness :
    fetch_invoice_step cfg0 [] invR = some (invoice_of invR none cfg0.current_date) ∧
    fetch_voucher_step cfg0 [] recR = some (voucher_of recR none cfg0.current_date) ∧
    fetch_voucher_step cfg0 [] refR = some (voucher_of refR none cfg0.current_date) ∧
    invoice_of invR none cfg0.current_date ∈ fetch_invoices cfg0 [] [invR] :=
  have h := c9_parse_error_falls_back_to_today cfg0 [] [invR] invR recR refR rfl
    (by simp) rfl rfl (by simp) rfl rfl (by simp) rfl
  ⟨h.1, h.2.1, h.2.2.1, h.2.2.2 (by simp)⟩

/-- C10. With no explicit start/end range, `__init__` anchors
`current_run_time` at today's noon and `fetch_invoices` silently drops every
invoice whose parsed creation timestamp is strictly later; with an explicit
range no `current_run_time` exists and no such filter applies; the receipt
and refund fetchers never apply this filter in either mode. -/
theorem c10_future_invoice_filter
    (now : DateTime) (today : Date) (s e : DateTime) (processed : List String)
    (inv : RawInvoice) (dt : DateTime) (rec : RawVoucher) (dtv : DateTime)
    (hts : inv.creationDate = .parsed dt)
    (hfut : dtGt dt ⟨now.date, 12 * 3600⟩)
    (hi1 : inv.isReversed = false) (hi2 : inv.invoiceNumber ∉ processed)
    (hr1 : rec.isCanceled = false) (hr2 : rec.voucherNumber ∉ processed)
    (hr3 : rec.issueDateTime = .parsed dtv) :
    fetch_invoice_step (mk_integrator none now today) processed inv = none ∧
    fetch_invoice_step (mk_integrator (some (s, e)) now today) processed inv =
      some (invoice_of inv (some dt) (assign_revenue_date dt)) ∧
    fetch_voucher_step (mk_integrator none now today) processed rec =
      some (voucher_of rec (some dtv) (assign_revenue_date dtv)) ∧
    fetch_voucher_step (mk_integrator (some (s, e)) now today) processed rec =
      some (voucher_of rec (some dtv) (assign_revenue_date dtv)) := by
  refine ⟨?_, ?_, ?_, ?_⟩ <;>
    simp [mk_integrator, fetch_invoice_step, fetch_voucher_step, hts, hfut,
      hi1, hi2, hr1, hr2, hr3]

/-- The run-start instant 2025-10-25 09:00:00 (so the noon anchor is
2025-10-25 12:00:00). -/
def now0 : DateTime := ⟨⟨2025, 10, 25⟩, 9 * 3600⟩

/-- An afternoon timestamp later than the noon anchor. -/
def dtFut : DateTime := ⟨⟨2025, 10, 25⟩, 14 * 3600⟩

/-- A raw invoice created at `dtFut`. -/
def invF : RawInvoice := ⟨false, "INV-6001", "R-6", 70, 0, [], .parsed dtFut⟩

/-- A raw receipt issued at `dtFut`. -/
def recF : RawVoucher := ⟨false, "RV-6001", "R-6", 70, 1, .parsed dtFut⟩

theorem c10_future_invoice_filter_witness :
    fetch_invoice_step (mk_integrator none now0 ⟨2025, 10, 25⟩) [] invF = none ∧
    fetch_invoice_step
        (mk_integrator (some (⟨⟨2025, 9, 1⟩, 0⟩, ⟨⟨2025, 10, 25⟩, 0⟩)) now0
          ⟨2025, 10, 25⟩) [] invF =
      some (invoice_of invF (some dtFut) (assign_revenue_date dtFut)) ∧
    fetch_voucher_step (mk_integrator none now0 ⟨2025, 10, 25⟩) [] recF =
      some (voucher_of recF (some dtFut) (assign_revenue_date dtFut)) ∧
    fetch_voucher_step
        (mk_integrator (some (⟨⟨2025, 9, 1⟩, 0⟩, ⟨⟨2025, 10, 25⟩, 0⟩)) now0
          ⟨2025, 10, 25⟩) [] recF =
      some (voucher_of recF (some dtFut) (assign_revenue_date dtFut)) :=
  c10_future_invoice_filter now0 ⟨2025, 10, 25⟩ ⟨⟨2025, 9, 1⟩, 0⟩
    ⟨⟨2025, 10, 25⟩, 0⟩ [] invF dtFut recF dtFut rfl (by decide) rfl (by simp)
    rfl (by simp) rfl

end NazeelToComsys
